import Mathlib

/-!
# Contact form, theme switch and scroll-spy: a shallow embedding

The development embeds the event handlers of `src/js/form.js` and
`src/js/main.js` as pure state-passing functions and proves properties of
them.

* The DOM is modelled by records holding exactly the properties the handlers
  read or write (`textContent`, `className`/`classList`, `disabled`, field
  values, ...).
* An `async` handler is split at its single `await` into the part that runs
  before the suspension and the part that runs once the request has settled.
* A finite JavaScript number is given by the rational it denotes; every
  arithmetic operation rounds its exact result to binary64.
-/

namespace ContactForm

/-! ## `src/js/form.js` -/

/-- User-facing status messages: the fields of the `MESSAGES` object
(form.js lines 1-7). -/
structure Messages where
  invalidEmail : String
  requiredFields : String
  success : String
  serverError : String
  networkError : String

/-- The constant `MESSAGES` of form.js. -/
def MESSAGES : Messages where
  invalidEmail := "Please enter a valid email address."
  requiredFields := "Please complete all fields."
  success := "✓ Message sent successfully!"
  serverError := "✗ Something went wrong. Please try again or message me on LinkedIn directly."
  networkError := "✗ Unable to send message. Please check your connection and try again."

/-- Labels of the submit control: the fields of the `BUTTON_TEXT` object
(form.js lines 9-12).  The JavaScript key `default` is spelled `default_`. -/
structure ButtonText where
  default_ : String
  sending : String

/-- The constant `BUTTON_TEXT` of form.js. -/
def BUTTON_TEXT : ButtonText where
  default_ := "Send message"
  sending := "Sending..."

/-- A text control of the form: an `input` of a text type (`text`, `email`,
...) or a `textarea`, with its `id` and `name` attributes.  `wellFormed` is the
platform check that applies to a non-empty value of this control (the e-mail
grammar for `type="email"`, a `pattern`, ...); the platform never applies it to
the empty value. -/
structure Field where
  id : String
  name : String
  value : String
  defaultValue : String
  required : Bool
  wellFormed : String → Bool

/-- The platform method `field.checkValidity()`: an empty value is invalid
exactly when the control is required, a non-empty one exactly when it fails
the control's format check. -/
def Field.checkValidity (f : Field) : Bool :=
  if f.value = "" then !f.required else f.wellFormed f.value

/-- The platform method `classList.add(token)` on an ordered set of class
tokens. -/
def classListAdd (token : String) (classes : List String) : List String :=
  if token ∈ classes then classes else classes ++ [token]

/-- The platform method `classList.remove(token)`. -/
def classListRemove (token : String) (classes : List String) : List String :=
  classes.filter (fun c => c ≠ token)

/-- The element `.contact-form`. -/
structure Form where
  action : String
  classList : List String
  fields : List Field

/-- The platform method `form.checkValidity()`: every control is valid. -/
def Form.checkValidity (form : Form) : Bool :=
  form.fields.all Field.checkValidity

/-- The result of a named lookup in `form.elements`: `undefined` when no
control matches, the control itself when exactly one matches, and a
`RadioNodeList` of the matching controls when several do. -/
inductive NamedItem where
  | undefined
  | element (f : Field)
  | radioNodeList (fs : List Field)

/-- The platform lookup `form.elements[key]`: it matches the controls whose
`id` or `name` equals `key`. -/
def Form.namedItem (form : Form) (key : String) : NamedItem :=
  match form.fields.filter (fun f => f.id = key || f.name = key) with
  | [] => .undefined
  | [f] => .element f
  | fs => .radioNodeList fs

/-- The platform lookup `form.elements.email`. -/
def Form.email (form : Form) : NamedItem :=
  form.namedItem "email"

/-- The platform method `form.reset()`: every control returns to its default
value. -/
def Form.reset (form : Form) : Form :=
  { form with fields := form.fields.map (fun f => { f with value := f.defaultValue }) }

/-- The entry list of `new FormData(form)`: the name and value of every
control that has a name. -/
def Form.formData (form : Form) : List (String × String) :=
  (form.fields.filter (fun f => f.name ≠ "")).map (fun f => (f.name, f.value))

/-- Index of the control returned by `form.querySelector(":invalid")`. -/
def Form.firstInvalid (form : Form) : Option Nat :=
  form.fields.findIdx? (fun f => !f.checkValidity)

/-- The element `.form-status`. -/
structure StatusElement where
  textContent : String
  classList : List String

/-- The element `button[type="submit"]`. -/
structure SubmitButton where
  disabled : Bool
  textContent : String

/-- One call of `fetch(url, { method, body })`. -/
structure Request where
  url : String
  method : String
  body : List (String × String)

/-- The three ways the awaited `fetch` can settle: a response with
`response.ok` true, a response with `response.ok` false, or a rejection. -/
inductive FetchOutcome where
  | ok
  | notOk
  | rejected
  deriving DecidableEq, Repr

/-- Everything the submit handler reads or writes.  `requests` is the log of
`fetch` calls issued so far, oldest first; `focused` is the index of the
control that last received `focus()` from the handler. -/
structure Page where
  form : Form
  status : StatusElement
  submitButton : SubmitButton
  focused : Option Nat
  requests : List Request

/-- Lines 25-27: clear the previous status. -/
def clearStatus (p : Page) : Page :=
  { p with status := { textContent := "", classList := ["form-status"] } }

/-- The test of line 40: `email && email.value && !email.checkValidity()`.
The `value` of a `RadioNodeList` is that of its first checked radio button and
the empty string when it has none; the controls of a `Form` are text controls,
so for a `RadioNodeList` the test stops at `email.value`, which is falsy. -/
def emailFormatFails (form : Form) : Bool :=
  match form.email with
  | .undefined => false
  | .element email => email.value ≠ "" && !email.checkValidity
  | .radioNodeList _ => false

/-- Lines 31-45: the branch taken when `form.checkValidity()` is false. -/
def validationBranch (p : Page) : Page :=
  let p1 := { p with form := { p.form with classList := classListAdd "show-errors" p.form.classList } }
  let p2 :=
    match p1.form.firstInvalid with
    | some i => { p1 with focused := some i }
    | none => p1
  if emailFormatFails p2.form then
    { p2 with status := { p2.status with textContent := MESSAGES.invalidEmail } }
  else
    { p2 with status := { p2.status with textContent := MESSAGES.requiredFields } }

/-- Lines 49-50: disable the submit control and show the working label. -/
def startSending (p : Page) : Page :=
  { p with submitButton := { disabled := true, textContent := BUTTON_TEXT.sending } }

/-- Lines 53-58: build the form data and call `fetch`. -/
def callFetch (p : Page) : Page :=
  { p with requests := p.requests ++
      [{ url := p.form.action, method := "POST", body := p.form.formData }] }

/-- Lines 60-74: the code run once the awaited request has settled, either
the rest of the `try` block or the `catch` block. -/
def settle (o : FetchOutcome) (p : Page) : Page :=
  match o with
  | .ok =>
    let p1 := { p with status := { p.status with textContent := MESSAGES.success } }
    let p2 := { p1 with status := { p1.status with classList := classListAdd "success" p1.status.classList } }
    let p3 := { p2 with form := p2.form.reset }
    { p3 with form := { p3.form with classList := classListRemove "show-errors" p3.form.classList } }
  | .notOk =>
    let p1 := { p with status := { p.status with textContent := MESSAGES.serverError } }
    { p1 with status := { p1.status with classList := classListAdd "error" p1.status.classList } }
  | .rejected =>
    let p1 := { p with status := { p.status with textContent := MESSAGES.networkError } }
    { p1 with status := { p1.status with classList := classListAdd "error" p1.status.classList } }

/-- Lines 75-79: the `finally` block. -/
def finallyBlock (p : Page) : Page :=
  { p with submitButton := { disabled := false, textContent := BUTTON_TEXT.default_ } }

/-- The handler from its entry to its first suspension or return.  The flag
tells whether the handler is suspended on the `await` of line 55 (`true`) or
has returned from the validation branch (`false`). -/
def submitBegin (p : Page) : Page × Bool :=
  let p1 := clearStatus p
  if !p1.form.checkValidity then
    (validationBranch p1, false)
  else
    (callFetch (startSending p1), true)

/-- The handler from the moment the awaited request settles to its end. -/
def submitResume (o : FetchOutcome) (p : Page) : Page :=
  finallyBlock (settle o p)

/-- One complete run of the submit handler, `o` being the way the request
settles if one is issued. -/
def submitHandler (o : FetchOutcome) (p : Page) : Page :=
  match submitBegin p with
  | (q, true) => submitResume o q
  | (q, false) => q

end ContactForm

namespace MainJs

open ContactForm (classListAdd classListRemove)

/-! ## `src/js/main.js` -/

/-- ASCII whitespace, the separator of class tokens in a `class` attribute:
tab, line feed, form feed, carriage return and space. -/
def isAsciiWhitespace (c : Char) : Bool :=
  c.toNat == 9 || c.toNat == 10 || c.toNat == 12 || c.toNat == 13 || c.toNat == 32

/-- Split a character list on ASCII whitespace, dropping empty pieces; `cur`
is the piece being read. -/
def splitOnAsciiWhitespace : List Char → List Char → List String
  | [], cur => if cur.isEmpty then [] else [String.mk cur]
  | c :: cs, cur =>
    if isAsciiWhitespace c then
      if cur.isEmpty then splitOnAsciiWhitespace cs []
      else String.mk cur :: splitOnAsciiWhitespace cs []
    else splitOnAsciiWhitespace cs (cur ++ [c])

/-- The ordered set of class tokens the platform reads from a `className`
string. -/
def classTokens (className : String) : List String :=
  (splitOnAsciiWhitespace className.data []).foldl (fun acc t => classListAdd t acc) []

/-- The `className` string the platform writes back after `classList.add(token)`:
the tokens joined by single spaces. -/
def classNameAdd (token : String) (className : String) : String :=
  " ".intercalate (classListAdd token (classTokens className))

/-- A JavaScript number, that is an IEEE 754 binary64 value.  A finite value is
given by the rational it denotes; the two zeros are not distinguished. -/
inductive JsNumber where
  | nan
  | negInfinity
  | finite (q : ℚ)
  | posInfinity
  deriving DecidableEq, Repr

/-- The number of binary digits of `n`, computed with `fuel` halvings at
most. -/
def bitLength : Nat → Nat → Nat
  | 0, _ => 0
  | fuel + 1, n => if n = 0 then 0 else bitLength fuel (n / 2) + 1

/-- The integer `k` with `2 ^ k ≤ n / d < 2 ^ (k + 1)`, for positive `n` and
`d`. -/
def floorLog2 (n d : Nat) : Int :=
  let k : Int := (bitLength n n : Int) - (bitLength d d : Int)
  if d * 2 ^ k.toNat ≤ n * 2 ^ (-k).toNat then k else k - 1

/-- The binary64 value of an exact result `x`: the nearest value with a
significand of 53 bits, ties going to the even significand; the spacing of
values never goes below `2 ^ (-1074)`, and a result that reaches `2 ^ 1024` in
magnitude becomes an infinity. -/
def roundBinary64 (x : ℚ) : JsNumber :=
  if x = 0 then .finite 0
  else
    let n := x.num.natAbs
    let d := x.den
    let e : Int := max (floorLog2 n d - 52) (-1074)
    let scaledNum := n * 2 ^ (-e).toNat
    let scaledDen := d * 2 ^ e.toNat
    let q := scaledNum / scaledDen
    let r := scaledNum % scaledDen
    let m := if scaledDen < 2 * r ∨ (2 * r = scaledDen ∧ q % 2 = 1) then q + 1 else q
    let y : ℚ := (m : ℚ) * (2 ^ e.toNat : ℕ) / (2 ^ (-e).toNat : ℕ)
    if (2 : ℚ) ^ 1024 ≤ y then (if 0 < x then .posInfinity else .negInfinity)
    else .finite (if 0 < x then y else -y)

/-- The JavaScript operator `+` on numbers. -/
def JsNumber.add : JsNumber → JsNumber → JsNumber
  | .nan, _ => .nan
  | _, .nan => .nan
  | .finite a, .finite b => roundBinary64 (a + b)
  | .posInfinity, .negInfinity => .nan
  | .negInfinity, .posInfinity => .nan
  | .posInfinity, _ => .posInfinity
  | _, .posInfinity => .posInfinity
  | .negInfinity, _ => .negInfinity
  | _, .negInfinity => .negInfinity

/-- The JavaScript operator `/` on numbers.  A zero divisor is taken to be the
positive zero; `main.js` divides by the literal `3` only. -/
def JsNumber.div : JsNumber → JsNumber → JsNumber
  | .nan, _ => .nan
  | _, .nan => .nan
  | .finite a, .finite b =>
    if b = 0 then (if a = 0 then .nan else if 0 < a then .posInfinity else .negInfinity)
    else roundBinary64 (a / b)
  | .finite _, _ => .finite 0
  | .posInfinity, .finite b => if 0 ≤ b then .posInfinity else .negInfinity
  | .negInfinity, .finite b => if 0 ≤ b then .negInfinity else .posInfinity
  | _, _ => .nan

/-- The JavaScript operator `>=` on numbers. -/
def JsNumber.ge : JsNumber → JsNumber → Bool
  | .nan, _ => false
  | _, .nan => false
  | .posInfinity, _ => true
  | _, .negInfinity => true
  | .finite a, .finite b => decide (b ≤ a)
  | _, _ => false

/-- A `.mini-map-item` element: its `data-target` attribute and its class
tokens. -/
structure NavItem where
  target : String
  classList : List String
  deriving DecidableEq, Repr

/-- An entry of `MiniMap.sections` (main.js line 116).  The section element is
identified by its `id` attribute, the navigation item by its position in
`MiniMap.items`. -/
structure TrackedSection where
  element : String
  item : Nat
  id : String
  deriving DecidableEq, Repr

/-- The part of the browser that `main.js` reads or writes.

* `hasThemeToggle`: `document.querySelector(".theme-toggle")` finds an element.
* `bodyClassName`: `document.body.className`.
* `storedTheme`: `localStorage.getItem("theme")`, `none` standing for `null`.
* `prefersDark`: `window.matchMedia("(prefers-color-scheme: dark)").matches`.
* `elementIds`: the ids of the elements of the document, in document order;
  `document.getElementById` finds an element exactly for these.
* `rectTop id`: `getBoundingClientRect().top` of the element with that id, a
  finite number.
* `scrollY`, `innerHeight`: `window.scrollY` and `window.innerHeight`, finite
  numbers.
* `items`: the `.mini-map-item` elements in document order (`MiniMap.items`).
* `sections`: the array `MiniMap.sections`. -/
structure Browser where
  hasThemeToggle : Bool
  bodyClassName : String
  storedTheme : Option String
  prefersDark : Bool
  elementIds : List String
  rectTop : String → ℚ
  scrollY : ℚ
  innerHeight : ℚ
  items : List NavItem
  sections : List TrackedSection

/-- JavaScript truthiness of the result of `localStorage.getItem`: `null` and
the empty string are falsy. -/
def truthy : Option String → Bool
  | none => false
  | some s => s ≠ ""

/-- Lines 20-26: `ThemeManager.loadTheme`. -/
def ThemeManager.loadTheme (b : Browser) : Browser :=
  let storedTheme := b.storedTheme
  let prefersDark := b.prefersDark
  let theme :=
    match storedTheme with
    | some s => if s ≠ "" then s else (if prefersDark then "theme-dark" else "theme-slate")
    | none => if prefersDark then "theme-dark" else "theme-slate"
  { b with bodyClassName := theme }

/-- Lines 40-46: `ThemeManager.toggle`, the click listener of the toggle. -/
def ThemeManager.toggle (b : Browser) : Browser :=
  let current := b.bodyClassName
  let next := if current = "theme-dark" then "theme-slate" else "theme-dark"
  { b with bodyClassName := next, storedTheme := some next }

/-- Lines 33-37: the listener for `change` events of the colour-scheme media
query; `e_matches` is `e.matches`, which is also the new state of the query. -/
def ThemeManager.onSchemeChange (e_matches : Bool) (b : Browser) : Browser :=
  let b1 := { b with prefersDark := e_matches }
  if !truthy b1.storedTheme then
    { b1 with bodyClassName := if e_matches then "theme-dark" else "theme-slate" }
  else b1

/-- Lines 10-18: `ThemeManager.init`.  Attaching the two listeners changes
nothing that is modelled. -/
def ThemeManager.init (b : Browser) : Browser :=
  if !b.hasThemeToggle then b else ThemeManager.loadTheme b

/-- Lines 112-118: the loop that fills `MiniMap.sections`; `i` is the position
of the first item of the list within `MiniMap.items`. -/
def MiniMap.collectSections (elementIds : List String) : List NavItem → Nat → List TrackedSection
  | [], _ => []
  | item :: rest, i =>
    let targetId := item.target
    if targetId ∈ elementIds then
      { element := targetId, item := i, id := targetId } ::
        MiniMap.collectSections elementIds rest (i + 1)
    else MiniMap.collectSections elementIds rest (i + 1)

/-- Line 152: `window.scrollY + window.innerHeight / 3`. -/
def MiniMap.scrollPosition (b : Browser) : JsNumber :=
  JsNumber.add (.finite b.scrollY) (JsNumber.div (.finite b.innerHeight) (.finite 3))

/-- Lines 158-159: `window.scrollY + rect.top` for the element of a tracked
section. -/
def MiniMap.absoluteTop (b : Browser) (s : TrackedSection) : JsNumber :=
  JsNumber.add (.finite b.scrollY) (.finite (b.rectTop s.element))

/-- Lines 157-164: the loop that finds the current section. -/
def MiniMap.findCurrent (b : Browser) (scrollPosition : JsNumber) :
    List TrackedSection → Option TrackedSection → Option TrackedSection
  | [], currentSection => currentSection
  | s :: rest, currentSection =>
    let absoluteTop := MiniMap.absoluteTop b s
    if JsNumber.ge scrollPosition absoluteTop then
      MiniMap.findCurrent b scrollPosition rest (some s)
    else MiniMap.findCurrent b scrollPosition rest currentSection

/-- Run `item.classList.add(token)` on the item at position `i`. -/
def addClassAt (token : String) : Nat → List NavItem → List NavItem
  | _, [] => []
  | 0, it :: rest => { it with classList := classListAdd token it.classList } :: rest
  | i + 1, it :: rest => it :: addClassAt token i rest

/-- Lines 151-174: `MiniMap.updateActiveSection`. -/
def MiniMap.updateActiveSection (b : Browser) : Browser :=
  let scrollPosition := MiniMap.scrollPosition b
  let currentSection := MiniMap.findCurrent b scrollPosition b.sections none
  let items := b.items.map (fun it => { it with classList := classListRemove "active" it.classList })
  match currentSection with
  | some s => { b with items := addClassAt "active" s.item items }
  | none =>
    match b.sections with
    | s0 :: _ => { b with items := addClassAt "active" s0.item items }
    | [] => { b with items := items }

/-- Lines 107-124: `MiniMap.init`.  Attaching the listeners changes nothing
that is modelled. -/
def MiniMap.init (b : Browser) : Browser :=
  let b1 := { b with sections := MiniMap.collectSections b.elementIds b.items 0 }
  if b1.sections.length = 0 then b1 else MiniMap.updateActiveSection b1

/-- Lines 232-243: `App.init`.  `ExpandableCards.init` and `SmoothScroll.init`
only attach listeners. -/
def App.init (b : Browser) : Browser :=
  let b1 := ThemeManager.init b
  let b2 := MiniMap.init b1
  { b2 with bodyClassName := classNameAdd "loaded" b2.bodyClassName }

/-- Positions of the items of a list that carry the `active` class, the first
item of the list having position `i`. -/
def activeFrom : Nat → List NavItem → List Nat
  | _, [] => []
  | i, it :: rest =>
    if "active" ∈ it.classList then i :: activeFrom (i + 1) rest else activeFrom (i + 1) rest

/-- The navigation items that carry the `active` class, as positions in
`MiniMap.items`. -/
def activeItems (b : Browser) : List Nat :=
  activeFrom 0 b.items

/-- The section the claim about the mini-map designates, in the claim's words:
the last tracked section in document order whose top is at or above
`scrollY + innerHeight / 3`, or the first section when no section qualifies.
The tracked sections are listed in the document order of their elements, and
the two numbers compared are the ones the code computes. -/
def currentInDocumentOrder (b : Browser) : Option TrackedSection :=
  let inDocumentOrder :=
    b.elementIds.flatMap (fun id => b.sections.filter (fun s => s.element = id))
  match (inDocumentOrder.filter
    (fun s => JsNumber.ge (MiniMap.scrollPosition b) (MiniMap.absoluteTop b s))).getLast? with
  | some s => some s
  | none => inDocumentOrder.head?

/-- The section the amended claim designates: the last entry of
`MiniMap.sections`, in the order of that array, whose computed absolute top is
at or above the computed scroll position, or the first entry when no entry
qualifies. -/
def currentInSectionsOrder (b : Browser) : Option TrackedSection :=
  match (b.sections.filter
    (fun s => JsNumber.ge (MiniMap.scrollPosition b) (MiniMap.absoluteTop b s))).getLast? with
  | some s => some s
  | none => b.sections.head?

end MainJs

/-! ## Concrete inputs -/

namespace ContactForm

/-- A stand-in for the platform's e-mail grammar, used on concrete inputs
only: the value contains the character `@` (code point 64). -/
def sampleEmailGrammar (s : String) : Bool :=
  s.data.any (fun c => c.toNat == 64)

/-- A required text control with the given name, used as its id too, and the
given value. -/
def sampleTextField (name value : String) : Field where
  id := name
  name := name
  value := value
  defaultValue := ""
  required := true
  wellFormed := fun _ => true

/-- A required e-mail control with id and name `email` and the given value. -/
def sampleEmailField (value : String) : Field where
  id := "email"
  name := "email"
  value := value
  defaultValue := ""
  required := true
  wellFormed := sampleEmailGrammar

/-- A required e-mail control with id `email` and name `_replyto` and the
given value. -/
def sampleReplyToField (value : String) : Field where
  id := "email"
  name := "_replyto"
  value := value
  defaultValue := ""
  required := true
  wellFormed := sampleEmailGrammar

/-- A contact form with the given controls, a cleared status and an enabled
submit control labelled `Send message`. -/
def sampleFormPage (fields : List Field) : Page where
  form := { action := "https://example.org/send", classList := ["contact-form"], fields := fields }
  status := { textContent := "", classList := ["form-status"] }
  submitButton := { disabled := false, textContent := "Send message" }
  focused := none
  requests := []

/-- A contact form with three required controls, `name`, `email` and
`message`, holding the given values, and a submit control showing `label`. -/
def samplePage (name email message label : String) : Page where
  form :=
    { action := "https://example.org/send"
      classList := ["contact-form"]
      fields :=
        [sampleTextField "name" name, sampleEmailField email, sampleTextField "message" message] }
  status := { textContent := "", classList := ["form-status"] }
  submitButton := { disabled := false, textContent := label }
  focused := none
  requests := []

end ContactForm

namespace MainJs

/-- A page with a theme toggle and three sections, `about`, `projects` and
`contact`, at 0, 800 and 1600 pixels from the top of the document, each with a
navigation item, in a viewport 900 pixels high scrolled to `scrollY`. -/
def sampleBrowser (storedTheme : Option String) (prefersDark : Bool) (scrollY : ℚ) : Browser where
  hasThemeToggle := true
  bodyClassName := ""
  storedTheme := storedTheme
  prefersDark := prefersDark
  elementIds := ["about", "projects", "contact"]
  rectTop := fun id =>
    (if id = "about" then 0 else if id = "projects" then 800 else 1600) - scrollY
  scrollY := scrollY
  innerHeight := 900
  items :=
    [ { target := "about", classList := ["mini-map-item"] },
      { target := "projects", classList := ["mini-map-item"] },
      { target := "contact", classList := ["mini-map-item"] } ]
  sections := []

/-- The sample page once `MiniMap.init` has filled `MiniMap.sections`. -/
def sampleTracked (scrollY : ℚ) : Browser :=
  { sampleBrowser none true scrollY with
    sections := MiniMap.collectSections ["about", "projects", "contact"]
      (sampleBrowser none true scrollY).items 0 }

/-- A page, not scrolled, in a viewport 800 pixels high, with two tracked
sections: `about` at the top and `projects` at the binary64 value nearest to
`800 / 3`, which is `4691249611844267 / 2 ^ 44` and lies above `800 / 3`. -/
def sampleRounded : Browser where
  hasThemeToggle := true
  bodyClassName := ""
  storedTheme := none
  prefersDark := true
  elementIds := ["about", "projects"]
  rectTop := fun id => if id = "about" then 0 else 4691249611844267 / 17592186044416
  scrollY := 0
  innerHeight := 800
  items :=
    [ { target := "about", classList := ["mini-map-item"] },
      { target := "projects", classList := ["mini-map-item"] } ]
  sections :=
    [ { element := "about", item := 0, id := "about" },
      { element := "projects", item := 1, id := "projects" } ]

/-- A page scrolled to 1000 pixels in a viewport 900 pixels high whose document
holds the section `about` at 0 pixels and then the section `projects` at 800
pixels, while its navigation lists the item of `projects` before the item of
`about`; `MiniMap.sections` is as `MiniMap.init` fills it. -/
def sampleReversedNav : Browser where
  hasThemeToggle := true
  bodyClassName := ""
  storedTheme := none
  prefersDark := true
  elementIds := ["about", "projects"]
  rectTop := fun id => (if id = "about" then 0 else 800) - 1000
  scrollY := 1000
  innerHeight := 900
  items :=
    [ { target := "projects", classList := ["mini-map-item"] },
      { target := "about", classList := ["mini-map-item"] } ]
  sections :=
    MiniMap.collectSections ["about", "projects"]
      [ { target := "projects", classList := ["mini-map-item"] },
        { target := "about", classList := ["mini-map-item"] } ] 0

end MainJs

/-! ## Theorems about `src/js/form.js` -/

namespace ContactForm

theorem checkValidity_clearStatus (p : Page) :
    (clearStatus p).form.checkValidity = p.form.checkValidity := rfl

theorem validationBranch_requests (p : Page) :
    (validationBranch p).requests = p.requests := by
  unfold validationBranch
  simp only
  split <;> split <;> rfl

theorem validationBranch_submitButton (p : Page) :
    (validationBranch p).submitButton = p.submitButton := by
  unfold validationBranch
  simp only
  split <;> split <;> rfl

theorem validationBranch_fields (p : Page) :
    (validationBranch p).form.fields = p.form.fields := by
  unfold validationBranch
  simp only
  split <;> split <;> rfl

theorem validationBranch_status (p : Page) :
    (validationBranch p).status =
      { textContent :=
          if emailFormatFails p.form then MESSAGES.invalidEmail else MESSAGES.requiredFields
        classList := p.status.classList } := by
  have hfields : ∀ c : List String,
      emailFormatFails { p.form with classList := c } = emailFormatFails p.form := fun _ => rfl
  unfold validationBranch
  simp only [hfields]
  split <;> split <;> simp_all

/-- A run of the handler on a form that fails validation. -/
theorem submitHandler_invalid (o : FetchOutcome) (p : Page)
    (h : p.form.checkValidity = false) :
    submitHandler o p = validationBranch (clearStatus p) := by
  simp [submitHandler, submitBegin, checkValidity_clearStatus, h]

/-- A run of the handler on a form that passes validation. -/
theorem submitHandler_valid (o : FetchOutcome) (p : Page)
    (h : p.form.checkValidity = true) :
    submitHandler o p = finallyBlock (settle o (callFetch (startSending (clearStatus p)))) := by
  simp [submitHandler, submitBegin, checkValidity_clearStatus, h, submitResume]

/-- A control of the form that is invalid makes the form invalid. -/
theorem checkValidity_false_of_mem (form : Form) (f : Field) (hf : f ∈ form.fields)
    (hv : f.checkValidity = false) : form.checkValidity = false := by
  unfold Form.checkValidity
  rw [Bool.eq_false_iff]
  intro hall
  rw [List.all_eq_true] at hall
  have := hall f hf
  simp [hv] at this

/-- A required control with an empty value is invalid. -/
theorem checkValidity_required_empty (f : Field) (hr : f.required = true)
    (hv : f.value = "") : f.checkValidity = false := by
  simp [Field.checkValidity, hr, hv]

/-- The lookup `form.elements[key]` yields a single control exactly when one
control of the form has that id or name. -/
theorem namedItem_element_iff (form : Form) (key : String) (e : Field) :
    form.namedItem key = .element e ↔
      form.fields.filter (fun f => f.id = key || f.name = key) = [e] := by
  unfold Form.namedItem
  split
  · rename_i h; rw [h]; simp
  · rename_i f h; rw [h]; simp
  · rename_i h1 h2
    constructor
    · intro h; cases h
    · intro h; exact absurd h (h2 e)

/-- The control found by `form.elements.email` is a control of the form. -/
theorem email_mem (form : Form) (e : Field) (h : form.email = .element e) :
    e ∈ form.fields := by
  have hf := (namedItem_element_iff form "email" e).mp h
  have : e ∈ form.fields.filter (fun f => f.id = "email" || f.name = "email") := by
    rw [hf]; exact List.mem_singleton.mpr rfl
  exact List.mem_of_mem_filter this

/-- The test of line 40 succeeds exactly when one control alone has the id or
name `email`, its value is non-empty and it fails its validity check. -/
theorem emailFormatFails_iff (form : Form) :
    emailFormatFails form = true ↔
      ∃ e : Field, form.fields.filter (fun f => f.id = "email" || f.name = "email") = [e] ∧
        e.value ≠ "" ∧ e.checkValidity = false := by
  unfold emailFormatFails
  constructor
  · intro h
    split at h
    · cases h
    · rename_i email hm
      refine ⟨email, (namedItem_element_iff form "email" email).mp hm, ?_⟩
      simpa using h
    · cases h
  · rintro ⟨e, hf, hne, hbad⟩
    have hm : form.email = .element e := (namedItem_element_iff form "email" e).mpr hf
    rw [hm]
    simp [hne, hbad]

theorem settle_requests (o : FetchOutcome) (p : Page) :
    (settle o p).requests = p.requests := by
  cases o <;> rfl

theorem settle_submitButton (o : FetchOutcome) (p : Page) :
    (settle o p).submitButton = p.submitButton := by
  cases o <;> rfl

/-- Claim C1, amended.  On every submit attempt in which some required control
is empty, the form fails `checkValidity()`, the handler returns without
suspending and issues no request, and the status text it leaves is
`MESSAGES.requiredFields` unless the test of line 40 succeeds, in which case it
is `MESSAGES.invalidEmail`.  The test succeeds exactly when one control alone
has the id or name `email` (so that `form.elements.email` is that control), its
value is non-empty and it fails its validity check. -/
theorem C1_required_empty_no_request (o : FetchOutcome) (p : Page)
    (h : ∃ f ∈ p.form.fields, f.required = true ∧ f.value = "") :
    p.form.checkValidity = false ∧
    (submitBegin p).2 = false ∧
    (submitHandler o p).requests = p.requests ∧
    (submitHandler o p).status.textContent =
      (if emailFormatFails p.form then MESSAGES.invalidEmail else MESSAGES.requiredFields) ∧
    (emailFormatFails p.form = true ↔
      ∃ e : Field, p.form.fields.filter (fun f => f.id = "email" || f.name = "email") = [e] ∧
        e.value ≠ "" ∧ e.checkValidity = false) := by
  obtain ⟨f, hf, hr, hv⟩ := h
  have hinv : p.form.checkValidity = false :=
    checkValidity_false_of_mem p.form f hf (checkValidity_required_empty f hr hv)
  refine ⟨hinv, ?_, ?_, ?_, emailFormatFails_iff p.form⟩
  · simp [submitBegin, checkValidity_clearStatus, hinv]
  · rw [submitHandler_invalid o p hinv, validationBranch_requests]; rfl
  · rw [submitHandler_invalid o p hinv, validationBranch_status]; rfl

/-- The amended claim C1 at a form whose name is empty and whose e-mail
address is malformed, at a form whose name alone is empty, and at a form whose
name is empty and which has two controls named `email`, the first malformed. -/
theorem C1_required_empty_no_request_witness :
    ((submitHandler .ok (samplePage "" "abc" "Hello" "Send message")).requests = [] ∧
      (submitHandler .ok (samplePage "" "abc" "Hello" "Send message")).status.textContent =
        "Please enter a valid email address.") ∧
    ((submitHandler .ok (samplePage "" "ada@example.org" "Hello" "Send message")).requests = [] ∧
      (submitHandler .ok (samplePage "" "ada@example.org" "Hello" "Send message")).status.textContent =
        "Please complete all fields.") ∧
    ((submitHandler .ok (sampleFormPage [sampleTextField "name" "", sampleEmailField "abc",
        sampleEmailField "x@y.org"])).requests = [] ∧
      (submitHandler .ok (sampleFormPage [sampleTextField "name" "", sampleEmailField "abc",
        sampleEmailField "x@y.org"])).status.textContent = "Please complete all fields.") := by
  have h1 := C1_required_empty_no_request .ok (samplePage "" "abc" "Hello" "Send message")
    ⟨_, List.mem_cons_self _ _, rfl, rfl⟩
  have h2 := C1_required_empty_no_request .ok (samplePage "" "ada@example.org" "Hello" "Send message")
    ⟨_, List.mem_cons_self _ _, rfl, rfl⟩
  have h3 := C1_required_empty_no_request .ok (sampleFormPage [sampleTextField "name" "",
    sampleEmailField "abc", sampleEmailField "x@y.org"]) ⟨_, List.mem_cons_self _ _, rfl, rfl⟩
  refine ⟨⟨h1.2.2.1, ?_⟩, ⟨h2.2.2.1, ?_⟩, ⟨h3.2.2.1, ?_⟩⟩
  · rw [h1.2.2.2.1]; decide
  · rw [h2.2.2.2.1]; decide
  · rw [h3.2.2.2.1]; decide

/-- Claim C1 as stated fails: on a form whose required `name` control is empty
and whose `email` control holds the malformed address `abc`, the form is
invalid and no request is issued, but the status text the handler leaves is
`MESSAGES.invalidEmail`, not `MESSAGES.requiredFields`. -/
theorem C1_counterexample :
    (∃ f ∈ (samplePage "" "abc" "Hello" "Send message").form.fields,
      f.required = true ∧ f.value = "") ∧
    (samplePage "" "abc" "Hello" "Send message").form.checkValidity = false ∧
    (submitHandler .ok (samplePage "" "abc" "Hello" "Send message")).status.textContent =
      MESSAGES.invalidEmail ∧
    (submitHandler .ok (samplePage "" "abc" "Hello" "Send message")).status.textContent ≠
      MESSAGES.requiredFields := by
  refine ⟨⟨_, List.mem_cons_self _ _, rfl, rfl⟩, by decide, by decide, by decide⟩

/-- Claim C2, amended.  If a control with the id or name `email` has a non-empty
value and fails its validity check, no request is issued; if moreover it is the
only control with that id or name, so that `form.elements.email` is that
control, the status text after the handler is `MESSAGES.invalidEmail`, not
`MESSAGES.requiredFields`.  Conversely, on a form that fails `checkValidity()`
and for which `form.elements.email` is undefined (no control has that id or
name), is a single control that is empty or valid, or is a collection of
several controls, the status text is `MESSAGES.requiredFields`. -/
theorem C2_email_message (o : FetchOutcome) (p : Page) :
    (∀ e ∈ p.form.fields, (e.id = "email" ∨ e.name = "email") → e.value ≠ "" →
      e.checkValidity = false → (submitHandler o p).requests = p.requests) ∧
    (∀ e : Field, p.form.fields.filter (fun f => f.id = "email" || f.name = "email") = [e] →
      e.value ≠ "" → e.checkValidity = false →
      p.form.email = .element e ∧
      (submitHandler o p).status.textContent = MESSAGES.invalidEmail ∧
      (submitHandler o p).status.textContent ≠ MESSAGES.requiredFields) ∧
    (p.form.checkValidity = false →
      (p.form.fields.filter (fun f => f.id = "email" || f.name = "email") = [] ∨
        (∃ e : Field, p.form.fields.filter (fun f => f.id = "email" || f.name = "email") = [e] ∧
          (e.value = "" ∨ e.checkValidity = true)) ∨
        2 ≤ (p.form.fields.filter (fun f => f.id = "email" || f.name = "email")).length) →
      (submitHandler o p).status.textContent = MESSAGES.requiredFields) := by
  refine ⟨?_, ?_, ?_⟩
  · intro e he _ _ hbad
    have hinv : p.form.checkValidity = false := checkValidity_false_of_mem p.form e he hbad
    rw [submitHandler_invalid o p hinv, validationBranch_requests]; rfl
  · intro e hf hne hbad
    have hm : p.form.email = .element e := (namedItem_element_iff p.form "email" e).mpr hf
    have hinv : p.form.checkValidity = false :=
      checkValidity_false_of_mem p.form e (email_mem p.form e hm) hbad
    have hfail : emailFormatFails p.form = true :=
      (emailFormatFails_iff p.form).mpr ⟨e, hf, hne, hbad⟩
    have htext : (submitHandler o p).status.textContent = MESSAGES.invalidEmail := by
      rw [submitHandler_invalid o p hinv, validationBranch_status]
      show (if emailFormatFails p.form = true then _ else _) = _
      rw [if_pos hfail]
    refine ⟨hm, htext, ?_⟩
    rw [htext]; decide
  · intro hinv hmail
    have hfail : emailFormatFails p.form = false := by
      rw [Bool.eq_false_iff]
      intro hT
      obtain ⟨e, hf, hne, hbad⟩ := (emailFormatFails_iff p.form).mp hT
      rcases hmail with hnil | ⟨e2, hf2, hempty | hvalid⟩ | hlen
      · rw [hf] at hnil; cases hnil
      · rw [hf] at hf2
        cases hf2
        exact hne hempty
      · rw [hf] at hf2
        cases hf2
        rw [hbad] at hvalid; cases hvalid
      · rw [hf] at hlen; simp at hlen
    rw [submitHandler_invalid o p hinv, validationBranch_status]
    show (if emailFormatFails p.form = true then _ else _) = _
    rw [hfail]; rfl

/-- The amended claim C2 at a form whose only e-mail control is malformed, at a
form whose e-mail address is well formed but whose message is empty, and at a
form with two controls named `email`, the first malformed. -/
theorem C2_email_message_witness :
    ((submitHandler .ok (samplePage "Ada" "abc" "Hello" "Send message")).status.textContent =
        "Please enter a valid email address." ∧
      (submitHandler .ok (samplePage "Ada" "abc" "Hello" "Send message")).requests = []) ∧
    (submitHandler .ok (samplePage "Ada" "ada@example.org" "" "Send message")).status.textContent =
      "Please complete all fields." ∧
    (submitHandler .ok (sampleFormPage [sampleTextField "name" "Ada", sampleEmailField "abc",
      sampleEmailField "x@y.org"])).status.textContent = "Please complete all fields." := by
  have h1 := (C2_email_message .ok (samplePage "Ada" "abc" "Hello" "Send message")).2.1
    (sampleEmailField "abc") rfl (by decide) (by decide)
  have h1r := (C2_email_message .ok (samplePage "Ada" "abc" "Hello" "Send message")).1
    (sampleEmailField "abc") (List.mem_cons_of_mem _ (List.mem_cons_self _ _)) (Or.inl rfl)
    (by decide) (by decide)
  have h2 := (C2_email_message .ok (samplePage "Ada" "ada@example.org" "" "Send message")).2.2
    (by decide) (Or.inr (Or.inl ⟨sampleEmailField "ada@example.org", rfl, Or.inr (by decide)⟩))
  have h3 := (C2_email_message .ok (sampleFormPage [sampleTextField "name" "Ada",
    sampleEmailField "abc", sampleEmailField "x@y.org"])).2.2
    (by decide) (Or.inr (Or.inr (by decide)))
  exact ⟨⟨h1.2.1, h1r⟩, h2, h3⟩

/-- Claim C2 as stated fails in both directions.  On a form with two controls
named `email`, the first holding the malformed address `abc`, a field named
`email` has a non-empty value that fails its validity check, yet the status
text is `MESSAGES.requiredFields`.  On a form whose only e-mail control has the
id `email` and the name `_replyto` and holds `abc`, no field is named `email`
and the form is invalid, yet the status text is `MESSAGES.invalidEmail`. -/
theorem C2_counterexample :
    ((∃ e ∈ (sampleFormPage [sampleTextField "name" "Ada", sampleEmailField "abc",
          sampleEmailField "x@y.org"]).form.fields,
        e.name = "email" ∧ e.value ≠ "" ∧ e.checkValidity = false) ∧
      (submitHandler .ok (sampleFormPage [sampleTextField "name" "Ada", sampleEmailField "abc",
        sampleEmailField "x@y.org"])).status.textContent = MESSAGES.requiredFields ∧
      (submitHandler .ok (sampleFormPage [sampleTextField "name" "Ada", sampleEmailField "abc",
        sampleEmailField "x@y.org"])).status.textContent ≠ MESSAGES.invalidEmail) ∧
    ((∀ e ∈ (sampleFormPage [sampleTextField "name" "Ada", sampleReplyToField "abc",
          sampleTextField "message" "Hello"]).form.fields, e.name ≠ "email") ∧
      (sampleFormPage [sampleTextField "name" "Ada", sampleReplyToField "abc",
        sampleTextField "message" "Hello"]).form.checkValidity = false ∧
      (submitHandler .ok (sampleFormPage [sampleTextField "name" "Ada", sampleReplyToField "abc",
        sampleTextField "message" "Hello"])).status.textContent = MESSAGES.invalidEmail ∧
      (submitHandler .ok (sampleFormPage [sampleTextField "name" "Ada", sampleReplyToField "abc",
        sampleTextField "message" "Hello"])).status.textContent ≠ MESSAGES.requiredFields) := by
  refine ⟨⟨⟨sampleEmailField "abc", List.mem_cons_of_mem _ (List.mem_cons_self _ _), rfl,
    by decide, by decide⟩, by decide, by decide⟩, ⟨?_, by decide, by decide, by decide⟩⟩
  intro e he
  simp only [sampleFormPage, List.mem_cons, List.mem_singleton, List.not_mem_nil, or_false] at he
  rcases he with rfl | rfl | rfl <;> decide

/-- The status element after a run of the handler on a valid form. -/
theorem submitHandler_valid_status (o : FetchOutcome) (p : Page)
    (h : p.form.checkValidity = true) :
    (submitHandler o p).status =
      match o with
      | .ok => { textContent := MESSAGES.success, classList := ["form-status", "success"] }
      | .notOk => { textContent := MESSAGES.serverError, classList := ["form-status", "error"] }
      | .rejected => { textContent := MESSAGES.networkError, classList := ["form-status", "error"] } := by
  rw [submitHandler_valid o p h]
  cases o <;> simp [finallyBlock, settle, callFetch, startSending, clearStatus, classListAdd]

/-- Claim C3.  On a form that passes `checkValidity()` the handler suspends on
its `await` after appending exactly one request to the log, a POST to
`form.action` carrying the form data, and the complete run issues no further
request.  The submit control is already disabled in the state in which `fetch`
is called, is disabled while the handler is suspended, is still disabled after
the code that handles the outcome, and is enabled when the handler finishes,
for each of the three outcomes. -/
theorem C3_valid_submit (o : FetchOutcome) (p : Page)
    (h : p.form.checkValidity = true) :
    submitBegin p = (callFetch (startSending (clearStatus p)), true) ∧
    (startSending (clearStatus p)).submitButton.disabled = true ∧
    (submitBegin p).1.requests =
      p.requests ++ [{ url := p.form.action, method := "POST", body := p.form.formData }] ∧
    (submitBegin p).1.submitButton.disabled = true ∧
    (settle o (submitBegin p).1).submitButton.disabled = true ∧
    (submitHandler o p).requests =
      p.requests ++ [{ url := p.form.action, method := "POST", body := p.form.formData }] ∧
    (submitHandler o p).submitButton.disabled = false := by
  have hb : submitBegin p = (callFetch (startSending (clearStatus p)), true) := by
    simp [submitBegin, checkValidity_clearStatus, h]
  refine ⟨hb, rfl, ?_, ?_, ?_, ?_, ?_⟩
  · rw [hb]; rfl
  · rw [hb]; rfl
  · rw [hb, settle_submitButton]; rfl
  · rw [submitHandler_valid o p h]
    show (settle o _).requests = _
    rw [settle_requests]; rfl
  · rw [submitHandler_valid o p h]; rfl

/-- Claim C3 at a completely filled form whose request is rejected. -/
theorem C3_valid_submit_witness :
    (submitHandler .rejected (samplePage "Ada" "ada@example.org" "Hello" "Send message")).requests =
      [{ url := "https://example.org/send", method := "POST",
         body := [("name", "Ada"), ("email", "ada@example.org"), ("message", "Hello")] }] ∧
    (submitBegin (samplePage "Ada" "ada@example.org" "Hello" "Send message")).1.submitButton.disabled
      = true ∧
    (submitHandler .rejected
      (samplePage "Ada" "ada@example.org" "Hello" "Send message")).submitButton.disabled = false := by
  have h := C3_valid_submit .rejected (samplePage "Ada" "ada@example.org" "Hello" "Send message")
    (by decide)
  exact ⟨h.2.2.2.2.2.1, h.2.2.2.1, h.2.2.2.2.2.2⟩

/-- Claim C4.  On a form that passes `checkValidity()` and whose request
resolves with `response.ok` true, after the handler the status text is
`MESSAGES.success`, the status classes are exactly `form-status` and `success`
(so not `error`), the controls are the original ones with every value set to
its default, and the form does not carry the class `show-errors`. -/
theorem C4_success (p : Page) (h : p.form.checkValidity = true) :
    (submitHandler .ok p).status.textContent = MESSAGES.success ∧
    (submitHandler .ok p).status.classList = ["form-status", "success"] ∧
    "error" ∉ (submitHandler .ok p).status.classList ∧
    (submitHandler .ok p).form.fields =
      p.form.fields.map (fun f => { f with value := f.defaultValue }) ∧
    (∀ f ∈ (submitHandler .ok p).form.fields, f.value = f.defaultValue) ∧
    "show-errors" ∉ (submitHandler .ok p).form.classList := by
  have hs := submitHandler_valid_status .ok p h
  simp only at hs
  rw [hs, submitHandler_valid .ok p h]
  refine ⟨rfl, rfl, by decide, rfl, ?_, ?_⟩
  · intro f hf
    have hf2 : f ∈ p.form.fields.map (fun f => { f with value := f.defaultValue }) := hf
    rw [List.mem_map] at hf2
    obtain ⟨g, _, rfl⟩ := hf2
    rfl
  · show "show-errors" ∉ classListRemove "show-errors" p.form.classList
    simp [classListRemove]

/-- Claim C4 at a completely filled form that already shows its errors. -/
theorem C4_success_witness :
    (submitHandler .ok (validationBranch (samplePage "Ada" "ada@example.org" "Hello" "Send message"))).status
      = { textContent := "✓ Message sent successfully!", classList := ["form-status", "success"] } ∧
    (submitHandler .ok
      (validationBranch (samplePage "Ada" "ada@example.org" "Hello" "Send message"))).form.classList
      = ["contact-form"] := by
  have h := C4_success (validationBranch (samplePage "Ada" "ada@example.org" "Hello" "Send message"))
    (by decide)
  refine ⟨?_, by decide⟩
  have h1 := h.1
  have h2 := h.2.1
  revert h1 h2
  generalize (submitHandler .ok
    (validationBranch (samplePage "Ada" "ada@example.org" "Hello" "Send message"))).status = st
  cases st
  intro h1 h2
  simp only at h1 h2
  subst h1 h2
  rfl

/-- Claim C5.  On a form that passes `checkValidity()` and whose request does
not succeed, the controls after the handler are exactly the controls before it
(values included), the status classes are `form-status` and `error` (so not
`success`), and the status text is `MESSAGES.serverError` for a response with
`response.ok` false and `MESSAGES.networkError` for a rejection, two different
texts. -/
theorem C5_failure_keeps_fields (o : FetchOutcome) (p : Page)
    (h : p.form.checkValidity = true) (ho : o ≠ .ok) :
    (submitHandler o p).form.fields = p.form.fields ∧
    (submitHandler o p).status.classList = ["form-status", "error"] ∧
    "error" ∈ (submitHandler o p).status.classList ∧
    "success" ∉ (submitHandler o p).status.classList ∧
    (o = .notOk → (submitHandler o p).status.textContent = MESSAGES.serverError) ∧
    (o = .rejected → (submitHandler o p).status.textContent = MESSAGES.networkError) ∧
    MESSAGES.serverError ≠ MESSAGES.networkError := by
  have hs := submitHandler_valid_status o p h
  have hne : MESSAGES.serverError ≠ MESSAGES.networkError := by decide
  cases o with
  | ok => exact absurd rfl ho
  | notOk =>
    simp only at hs
    rw [hs, submitHandler_valid .notOk p h]
    exact ⟨rfl, rfl, by decide, by decide, (fun _ => rfl), (fun h => nomatch h), hne⟩
  | rejected =>
    simp only at hs
    rw [hs, submitHandler_valid .rejected p h]
    exact ⟨rfl, rfl, by decide, by decide, (fun h => nomatch h), (fun _ => rfl), hne⟩

/-- Claim C5 at a completely filled form, once for a response that is not ok
and once for a rejected request. -/
theorem C5_failure_keeps_fields_witness :
    ((submitHandler .notOk (samplePage "Ada" "ada@example.org" "Hello" "Send message")).form.formData
        = [("name", "Ada"), ("email", "ada@example.org"), ("message", "Hello")] ∧
      (submitHandler .notOk (samplePage "Ada" "ada@example.org" "Hello" "Send message")).status.textContent
        = "✗ Something went wrong. Please try again or message me on LinkedIn directly.") ∧
    (submitHandler .rejected (samplePage "Ada" "ada@example.org" "Hello" "Send message")).status.textContent
      = "✗ Unable to send message. Please check your connection and try again." := by
  have h1 := C5_failure_keeps_fields .notOk
    (samplePage "Ada" "ada@example.org" "Hello" "Send message") (by decide) (by decide)
  have h2 := C5_failure_keeps_fields .rejected
    (samplePage "Ada" "ada@example.org" "Hello" "Send message") (by decide) (by decide)
  refine ⟨⟨?_, h1.2.2.2.2.1 rfl⟩, h2.2.2.2.2.2.1 rfl⟩
  unfold Form.formData
  rw [h1.1]
  decide

/-- The status element after a run of the handler, as a function of the form
and of the outcome of the request alone. -/
theorem submitHandler_status (o : FetchOutcome) (p : Page) :
    (submitHandler o p).status =
      if p.form.checkValidity then
        match o with
        | .ok => { textContent := MESSAGES.success, classList := ["form-status", "success"] }
        | .notOk => { textContent := MESSAGES.serverError, classList := ["form-status", "error"] }
        | .rejected => { textContent := MESSAGES.networkError, classList := ["form-status", "error"] }
      else
        { textContent :=
            if emailFormatFails p.form then MESSAGES.invalidEmail else MESSAGES.requiredFields
          classList := ["form-status"] } := by
  cases h : p.form.checkValidity with
  | true => simpa using submitHandler_valid_status o p h
  | false =>
    rw [submitHandler_invalid o p h, validationBranch_status]
    simp [clearStatus]

/-- Claim C6.  Let a first submit attempt with any outcome be followed by a
second one.  The first step of the second attempt resets the status text to the
empty string and the status classes to exactly `form-status`, and the status is
still in that state while the second attempt is suspended on its request; when
the second attempt reaches its first suspension or return the status classes
are exactly `form-status`.  The
status after the second attempt is a function of the form as the second attempt
finds it and of the second outcome, and it is the same whatever status element
`s` the first attempt left behind. -/
theorem C6_no_stale_status (o1 o2 : FetchOutcome) (p : Page) :
    (clearStatus (submitHandler o1 p)).status =
      { textContent := "", classList := ["form-status"] } ∧
    submitBegin (submitHandler o1 p) =
      (if !(clearStatus (submitHandler o1 p)).form.checkValidity then
        (validationBranch (clearStatus (submitHandler o1 p)), false)
      else (callFetch (startSending (clearStatus (submitHandler o1 p))), true)) ∧
    (submitBegin (submitHandler o1 p)).1.status.classList = ["form-status"] ∧
    (callFetch (startSending (clearStatus (submitHandler o1 p)))).status =
      { textContent := "", classList := ["form-status"] } ∧
    (submitHandler o2 (submitHandler o1 p)).status =
      (if (submitHandler o1 p).form.checkValidity then
        match o2 with
        | .ok => { textContent := MESSAGES.success, classList := ["form-status", "success"] }
        | .notOk => { textContent := MESSAGES.serverError, classList := ["form-status", "error"] }
        | .rejected => { textContent := MESSAGES.networkError, classList := ["form-status", "error"] }
      else
        { textContent :=
            if emailFormatFails (submitHandler o1 p).form then MESSAGES.invalidEmail
            else MESSAGES.requiredFields
          classList := ["form-status"] }) ∧
    (∀ s : StatusElement,
      (submitHandler o2 { submitHandler o1 p with status := s }).status =
        (submitHandler o2 (submitHandler o1 p)).status) := by
  refine ⟨rfl, rfl, ?_, rfl, submitHandler_status o2 _, ?_⟩
  · unfold submitBegin
    simp only
    split
    · rw [validationBranch_status]; rfl
    · rfl
  · intro s
    rw [submitHandler_status, submitHandler_status]

/-- Claim C7, amended.  On a form that passes `checkValidity()`, whatever the
label and state of the submit control before the attempt and whatever the
outcome, the handler ends with its `finally` block and leaves the control
enabled and showing `BUTTON_TEXT.default`; that is the label shown before the
attempt when that label was `BUTTON_TEXT.default`.  On a form that fails
`checkValidity()` the handler leaves the control as it found it. -/
theorem C7_button_after_attempt (o : FetchOutcome) (p : Page) :
    (p.form.checkValidity = true →
      submitHandler o p = finallyBlock (settle o (submitBegin p).1) ∧
      (submitHandler o p).submitButton =
        { disabled := false, textContent := BUTTON_TEXT.default_ } ∧
      (p.submitButton.textContent = BUTTON_TEXT.default_ →
        (submitHandler o p).submitButton.textContent = p.submitButton.textContent)) ∧
    (p.form.checkValidity = false →
      (submitHandler o p).submitButton = p.submitButton) := by
  constructor
  · intro h
    have hb : submitBegin p = (callFetch (startSending (clearStatus p)), true) := by
      simp [submitBegin, checkValidity_clearStatus, h]
    rw [submitHandler_valid o p h, hb]
    exact ⟨rfl, rfl, fun hl => hl.symm ▸ rfl⟩
  · intro h
    rw [submitHandler_invalid o p h, validationBranch_submitButton]
    rfl

/-- The amended claim C7 at a completely filled form whose request is rejected
and at a form whose name is empty. -/
theorem C7_button_after_attempt_witness :
    (submitHandler .rejected (samplePage "Ada" "ada@example.org" "Hello" "Send message")).submitButton
      = { disabled := false, textContent := "Send message" } ∧
    (submitHandler .rejected (samplePage "" "ada@example.org" "Hello" "Send")).submitButton
      = { disabled := false, textContent := "Send" } := by
  have h1 := (C7_button_after_attempt .rejected
    (samplePage "Ada" "ada@example.org" "Hello" "Send message")).1 (by decide)
  have h2 := (C7_button_after_attempt .rejected
    (samplePage "" "ada@example.org" "Hello" "Send")).2 (by decide)
  exact ⟨h1.2.1, h2⟩

/-- Claim C7 as stated fails: on a completely filled form whose submit control
shows the label `Send`, after a successful attempt the control shows
`Send message`, not the label it showed before. -/
theorem C7_counterexample :
    (samplePage "Ada" "ada@example.org" "Hello" "Send").submitButton.textContent = "Send" ∧
    (samplePage "Ada" "ada@example.org" "Hello" "Send").form.checkValidity = true ∧
    (submitHandler .ok (samplePage "Ada" "ada@example.org" "Hello" "Send")).submitButton.textContent
      = "Send message" ∧
    (submitHandler .ok (samplePage "Ada" "ada@example.org" "Hello" "Send")).submitButton.textContent
      ≠ (samplePage "Ada" "ada@example.org" "Hello" "Send").submitButton.textContent := by
  refine ⟨rfl, by decide, by decide, by decide⟩

end ContactForm

/-! ## Theorems about `src/js/main.js` -/

namespace MainJs

open ContactForm (classListAdd classListRemove)

theorem updateActiveSection_bodyClassName (b : Browser) :
    (MiniMap.updateActiveSection b).bodyClassName = b.bodyClassName := by
  unfold MiniMap.updateActiveSection
  simp only
  split
  · rfl
  · split <;> rfl

theorem updateActiveSection_storedTheme (b : Browser) :
    (MiniMap.updateActiveSection b).storedTheme = b.storedTheme := by
  unfold MiniMap.updateActiveSection
  simp only
  split
  · rfl
  · split <;> rfl

theorem MiniMap_init_bodyClassName (b : Browser) :
    (MiniMap.init b).bodyClassName = b.bodyClassName := by
  unfold MiniMap.init
  simp only
  split
  · rfl
  · rw [updateActiveSection_bodyClassName]

theorem MiniMap_init_storedTheme (b : Browser) :
    (MiniMap.init b).storedTheme = b.storedTheme := by
  unfold MiniMap.init
  simp only
  split
  · rfl
  · rw [updateActiveSection_storedTheme]

/-- The class attribute of `document.body` after `App.init`. -/
theorem App_init_bodyClassName (b : Browser) :
    (App.init b).bodyClassName = classNameAdd "loaded" (ThemeManager.init b).bodyClassName := by
  show classNameAdd "loaded" (MiniMap.init (ThemeManager.init b)).bodyClassName = _
  rw [MiniMap_init_bodyClassName]

/-- The stored theme after `App.init`. -/
theorem App_init_storedTheme (b : Browser) :
    (App.init b).storedTheme = b.storedTheme := by
  show (MiniMap.init (ThemeManager.init b)).storedTheme = _
  rw [MiniMap_init_storedTheme]
  unfold ThemeManager.init
  split <;> rfl

theorem toggle_bodyClassName (b : Browser) :
    (ThemeManager.toggle b).bodyClassName =
      (if b.bodyClassName = "theme-dark" then "theme-slate" else "theme-dark") := rfl

theorem toggle_storedTheme (b : Browser) :
    (ThemeManager.toggle b).storedTheme = some (ThemeManager.toggle b).bodyClassName := rfl

/-- With a theme toggle, no stored theme and a dark system preference,
`ThemeManager.init` sets the class attribute of the body to `theme-dark`. -/
theorem ThemeManager_init_dark (b : Browser) (ht : b.hasThemeToggle = true)
    (hs : b.storedTheme = none) (hd : b.prefersDark = true) :
    (ThemeManager.init b).bodyClassName = "theme-dark" := by
  unfold ThemeManager.init
  rw [ht]
  unfold ThemeManager.loadTheme
  simp only [hs, hd]
  rfl

/-- Claim C8, the behaviour of the code.  On a page with a theme toggle, no
stored theme and a dark system preference, `App.init` leaves the class
attribute of `document.body` equal to `theme-dark loaded` (the theme token is
the dark one).  The first click on the toggle then compares that attribute with
`theme-dark`, finds them different, and so sets the attribute to `theme-dark`
and stores `theme-dark`: the displayed theme stays dark and the stored tag is
the dark one, not the slate one.  Only the second click switches to
`theme-slate`. -/
theorem C8_first_toggle_after_init (b : Browser) (ht : b.hasThemeToggle = true)
    (hs : b.storedTheme = none) (hd : b.prefersDark = true) :
    (App.init b).bodyClassName = "theme-dark loaded" ∧
    classTokens (App.init b).bodyClassName = ["theme-dark", "loaded"] ∧
    (App.init b).storedTheme = none ∧
    (ThemeManager.toggle (App.init b)).bodyClassName = "theme-dark" ∧
    (ThemeManager.toggle (App.init b)).storedTheme = some "theme-dark" ∧
    (ThemeManager.toggle (ThemeManager.toggle (App.init b))).bodyClassName = "theme-slate" ∧
    (ThemeManager.toggle (ThemeManager.toggle (App.init b))).storedTheme = some "theme-slate" := by
  have hinit : (App.init b).bodyClassName = "theme-dark loaded" := by
    rw [App_init_bodyClassName, ThemeManager_init_dark b ht hs hd]
    decide
  have hst : (App.init b).storedTheme = none := by rw [App_init_storedTheme, hs]
  have h1 : (ThemeManager.toggle (App.init b)).bodyClassName = "theme-dark" := by
    rw [toggle_bodyClassName, hinit]
    decide
  have h2 : (ThemeManager.toggle (ThemeManager.toggle (App.init b))).bodyClassName =
      "theme-slate" := by
    rw [toggle_bodyClassName, if_pos h1]
  refine ⟨hinit, ?_, hst, h1, ?_, h2, ?_⟩
  · rw [hinit]; decide
  · rw [toggle_storedTheme, h1]
  · rw [toggle_storedTheme, h2]

/-- The behaviour stated for claim C8 at the sample page with no stored theme
and a dark system preference. -/
theorem C8_first_toggle_after_init_witness :
    (ThemeManager.toggle (App.init (sampleBrowser none true 0))).bodyClassName = "theme-dark" ∧
    (ThemeManager.toggle (App.init (sampleBrowser none true 0))).storedTheme = some "theme-dark" := by
  have h := C8_first_toggle_after_init (sampleBrowser none true 0) rfl rfl rfl
  exact ⟨h.2.2.2.1, h.2.2.2.2.1⟩

/-- Claim C9.  A persisted preference is a stored value that is not the empty
string (the code tests the stored value for truthiness).  On a colour-scheme
change event: when a preference is persisted the class attribute of
`document.body` is left unchanged, which is in particular so after any toggle;
when nothing is stored it becomes `theme-dark` if the event matches dark and
`theme-slate` otherwise.  `ThemeManager.loadTheme`, which `ThemeManager.init`
runs on a page with a theme toggle, sets the class attribute to the stored
value when there is one and otherwise to the system default. -/
theorem C9_scheme_change_and_load (b : Browser) (e_matches : Bool)
    (h : b.storedTheme ≠ some "") :
    (b.storedTheme.isSome = true →
      (ThemeManager.onSchemeChange e_matches b).bodyClassName = b.bodyClassName) ∧
    (ThemeManager.onSchemeChange e_matches (ThemeManager.toggle b)).bodyClassName =
      (ThemeManager.toggle b).bodyClassName ∧
    (b.storedTheme = none →
      (ThemeManager.onSchemeChange e_matches b).bodyClassName =
        (if e_matches then "theme-dark" else "theme-slate")) ∧
    (∀ s : String, b.storedTheme = some s → (ThemeManager.loadTheme b).bodyClassName = s) ∧
    (b.storedTheme = none →
      (ThemeManager.loadTheme b).bodyClassName =
        (if b.prefersDark then "theme-dark" else "theme-slate")) ∧
    (b.hasThemeToggle = true → ThemeManager.init b = ThemeManager.loadTheme b) := by
  refine ⟨?_, ?_, ?_, ?_, ?_, ?_⟩
  · intro hsome
    cases hst : b.storedTheme with
    | none => rw [hst] at hsome; cases hsome
    | some s =>
      have hne : s ≠ "" := fun hs => h (by rw [hst, hs])
      simp [ThemeManager.onSchemeChange, truthy, hst, hne]
  · unfold ThemeManager.toggle
    by_cases hc : b.bodyClassName = "theme-dark"
    · simp [ThemeManager.onSchemeChange, truthy, hc]
    · simp [ThemeManager.onSchemeChange, truthy, hc]
  · intro hnone
    simp [ThemeManager.onSchemeChange, truthy, hnone]
  · intro s hst
    have hne : s ≠ "" := fun hs => h (by rw [hst, hs])
    simp [ThemeManager.loadTheme, hst, hne]
  · intro hnone
    simp [ThemeManager.loadTheme, hnone]
  · intro ht
    simp [ThemeManager.init, ht]

/-- Claim C9 at the sample page.  With the slate theme stored and loaded, a
change of the system preference to dark leaves the slate theme; with nothing
stored, the same change switches the body to `theme-dark`. -/
theorem C9_scheme_change_and_load_witness :
    ((ThemeManager.loadTheme (sampleBrowser (some "theme-slate") false 0)).bodyClassName =
        "theme-slate" ∧
      (ThemeManager.onSchemeChange true
        (ThemeManager.loadTheme (sampleBrowser (some "theme-slate") false 0))).bodyClassName =
        "theme-slate") ∧
    ((ThemeManager.loadTheme (sampleBrowser none false 0)).bodyClassName = "theme-slate" ∧
      (ThemeManager.onSchemeChange true
        (ThemeManager.loadTheme (sampleBrowser none false 0))).bodyClassName = "theme-dark") := by
  have h0 := C9_scheme_change_and_load (sampleBrowser (some "theme-slate") false 0) true
    (by decide)
  have h1 := C9_scheme_change_and_load
    (ThemeManager.loadTheme (sampleBrowser (some "theme-slate") false 0)) true (by decide)
  have h2 := C9_scheme_change_and_load (sampleBrowser none false 0) true (by decide)
  have h3 := C9_scheme_change_and_load
    (ThemeManager.loadTheme (sampleBrowser none false 0)) true (by decide)
  have hl := h0.2.2.2.1 "theme-slate" rfl
  exact ⟨⟨hl, (h1.1 rfl).trans hl⟩, h2.2.2.2.2.1 rfl, h3.2.2.1 rfl⟩

/-- No item carries `active` after `classList.remove("active")` on every item. -/
theorem activeFrom_map_remove (l : List NavItem) (k : Nat) :
    activeFrom k (l.map (fun it => { it with classList := classListRemove "active" it.classList }))
      = [] := by
  induction l generalizing k with
  | nil => rfl
  | cons it rest ih =>
    simp only [List.map_cons, activeFrom]
    rw [if_neg (by simp [classListRemove]), ih]

theorem mem_classListAdd (token : String) (classes : List String) :
    token ∈ classListAdd token classes := by
  unfold classListAdd
  split
  · assumption
  · simp

/-- After removing `active` from every item and adding it to the item at a
valid position, that item alone carries `active`. -/
theorem activeFrom_addClassAt (l : List NavItem) (i k : Nat) (hi : i < l.length) :
    activeFrom k (addClassAt "active" i
      (l.map (fun it => { it with classList := classListRemove "active" it.classList })))
      = [k + i] := by
  induction l generalizing i k with
  | nil => simp at hi
  | cons it rest ih =>
    cases i with
    | zero =>
      simp only [List.map_cons, addClassAt, activeFrom]
      rw [if_pos (mem_classListAdd _ _), activeFrom_map_remove]
      rfl
    | succ j =>
      simp only [List.map_cons, addClassAt, activeFrom]
      rw [if_neg (by simp [classListRemove]), ih j (k + 1) (by simpa using hi)]
      congr 1
      omega

/-- The loop of lines 157-164 returns the last qualifying section of the list,
or its initial value when no section qualifies. -/
theorem findCurrent_eq (b : Browser) (l : List TrackedSection) (cur : Option TrackedSection) :
    MiniMap.findCurrent b (MiniMap.scrollPosition b) l cur =
      match (l.filter
        (fun s => JsNumber.ge (MiniMap.scrollPosition b) (MiniMap.absoluteTop b s))).getLast? with
      | some s => some s
      | none => cur := by
  induction l generalizing cur with
  | nil => rfl
  | cons s rest ih =>
    unfold MiniMap.findCurrent
    simp only
    cases hq : JsNumber.ge (MiniMap.scrollPosition b) (MiniMap.absoluteTop b s) with
    | true =>
      have hf : (s :: rest).filter
          (fun s => JsNumber.ge (MiniMap.scrollPosition b) (MiniMap.absoluteTop b s)) =
          s :: rest.filter
            (fun s => JsNumber.ge (MiniMap.scrollPosition b) (MiniMap.absoluteTop b s)) := by
        simp [List.filter_cons, hq]
      rw [if_pos rfl, ih, hf, List.getLast?_cons]
      cases (rest.filter
        (fun s => JsNumber.ge (MiniMap.scrollPosition b) (MiniMap.absoluteTop b s))).getLast?
        <;> rfl
    | false =>
      have hf : (s :: rest).filter
          (fun s => JsNumber.ge (MiniMap.scrollPosition b) (MiniMap.absoluteTop b s)) =
          rest.filter
            (fun s => JsNumber.ge (MiniMap.scrollPosition b) (MiniMap.absoluteTop b s)) := by
        simp [List.filter_cons, hq]
      rw [if_neg (by simp), ih, hf]

/-- Every entry collected by `MiniMap.init` refers to an item of the list. -/
theorem collectSections_item_lt (ids : List String) (l : List NavItem) (i : Nat) :
    ∀ s ∈ MiniMap.collectSections ids l i, s.item < i + l.length := by
  induction l generalizing i with
  | nil => intro s hs; simp [MiniMap.collectSections] at hs
  | cons it rest ih =>
    intro s hs
    unfold MiniMap.collectSections at hs
    simp only at hs
    split at hs
    · rcases List.mem_cons.mp hs with rfl | hs
      · simp
      · have := ih (i + 1) s hs
        simp only [List.length_cons]; omega
    · have := ih (i + 1) s hs
      simp only [List.length_cons]; omega

/-- The entries of `MiniMap.sections` refer to items of `MiniMap.items` in the
state `MiniMap.init` builds before its first update. -/
theorem init_sections_item_lt (b : Browser) :
    ∀ s ∈ MiniMap.collectSections b.elementIds b.items 0, s.item < b.items.length := by
  intro s hs
  simpa using collectSections_item_lt b.elementIds b.items 0 s hs

/-- Claim C10, amended.  Let the array `MiniMap.sections` be non-empty, each
entry referring to an item of `MiniMap.items` (as after `MiniMap.init`).  After
`MiniMap.updateActiveSection` exactly one navigation item carries the class
`active`: the item of the last entry of `MiniMap.sections`, in the order of that
array, for which the binary64 value of `scrollY + innerHeight / 3` is `>=` the
binary64 value of `scrollY + rect.top`, or the item of the first entry when no
entry qualifies. -/
theorem C10_exactly_one_active (b : Browser) (hne : b.sections ≠ [])
    (hwf : ∀ s ∈ b.sections, s.item < b.items.length) :
    ∃ s ∈ b.sections, currentInSectionsOrder b = some s ∧
      activeItems (MiniMap.updateActiveSection b) = [s.item] := by
  have hfind := findCurrent_eq b b.sections none
  unfold currentInSectionsOrder activeItems MiniMap.updateActiveSection
  simp only
  rw [hfind]
  cases hlast : (b.sections.filter
      (fun s => JsNumber.ge (MiniMap.scrollPosition b) (MiniMap.absoluteTop b s))).getLast? with
  | some s =>
    have hmem : s ∈ b.sections :=
      List.mem_of_mem_filter (List.mem_of_mem_getLast? hlast)
    refine ⟨s, hmem, rfl, ?_⟩
    simp only
    rw [activeFrom_addClassAt b.items s.item 0 (hwf s hmem), Nat.zero_add]
  | none =>
    cases hsec : b.sections with
    | nil => exact absurd hsec hne
    | cons s0 rest =>
      have hmem : s0 ∈ b.sections := by rw [hsec]; exact List.mem_cons_self _ _
      refine ⟨s0, List.mem_cons_self _ _, rfl, ?_⟩
      simp only
      rw [activeFrom_addClassAt b.items s0.item 0 (hwf s0 hmem), Nat.zero_add]

/-- The amended claim C10 at the sample page scrolled to 600 pixels, where the
item of the second section, `projects`, is the one that carries `active`, and
at the page whose second section lies at the binary64 value nearest to
`800 / 3`: that value is above `800 / 3`, but the rounded scroll position
reaches it, so the item of the second section carries `active`. -/
theorem C10_exactly_one_active_witness :
    (currentInSectionsOrder (sampleTracked 600) =
        some { element := "projects", item := 1, id := "projects" } ∧
      activeItems (MiniMap.updateActiveSection (sampleTracked 600)) = [1]) ∧
    ((800 : ℚ) / 3 < 4691249611844267 / 17592186044416 ∧
      MiniMap.scrollPosition sampleRounded = .finite (4691249611844267 / 17592186044416) ∧
      activeItems (MiniMap.updateActiveSection sampleRounded) = [1]) := by
  have h1 : currentInSectionsOrder (sampleTracked 600) =
      some { element := "projects", item := 1, id := "projects" } := by decide!
  have h2 : currentInSectionsOrder sampleRounded =
      some { element := "projects", item := 1, id := "projects" } := by decide!
  obtain ⟨s, _, hs, hact⟩ := C10_exactly_one_active (sampleTracked 600) (by decide) (by decide)
  obtain ⟨t, _, ht, hact2⟩ := C10_exactly_one_active sampleRounded (by decide) (by decide)
  rw [h1] at hs
  rw [h2] at ht
  cases hs
  cases ht
  exact ⟨⟨h1, hact⟩, by norm_num, by decide!, hact2⟩

/-- Claim C10 as stated fails.  On a page whose document holds the section
`about` and then the section `projects`, and whose navigation lists the item of
`projects` (item 0) before the item of `about` (item 1), scrolled so that both
sections qualify, the last qualifying section in document order is `projects`,
whose item is item 0; but the item that carries `active` after
`MiniMap.updateActiveSection` is item 1, the item of `about`. -/
theorem C10_counterexample :
    sampleReversedNav.elementIds = ["about", "projects"] ∧
    sampleReversedNav.sections =
      [ { element := "projects", item := 0, id := "projects" },
        { element := "about", item := 1, id := "about" } ] ∧
    (∀ s ∈ sampleReversedNav.sections,
      JsNumber.ge (MiniMap.scrollPosition sampleReversedNav)
        (MiniMap.absoluteTop sampleReversedNav s) = true) ∧
    currentInDocumentOrder sampleReversedNav =
      some { element := "projects", item := 0, id := "projects" } ∧
    activeItems (MiniMap.updateActiveSection sampleReversedNav) = [1] ∧
    activeItems (MiniMap.updateActiveSection sampleReversedNav) ≠ [0] := by
  refine ⟨rfl, by decide, by decide!, by decide!, by decide!, by decide!⟩

end MainJs
